import Mathlib

/-!
# Verification of the LittleJS physics / collision core

Shallow embedding of `src/engine/engineUtilities.js` (the single source file):
the math helpers, the `Vector2` value type, the physics part of
`EngineObject.update` (integration, the object–object collision resolver, the
tile collision resolver), `EngineObject.destroy`, and
`applyAcceleration` / `applyForce`.

Numbers: JS floats are modelled as exact rationals (`ℚ`) for the physics code,
which uses only field operations and comparisons.  The operations that need
`sqrt` / `sin` / `cos` (`Vector2.length`, `normalize`, `clampLength`,
`setAngle`) are modelled over `ℝ` in a second value type `Vec2R`.  The two
places inside `update` where a square root feeds back into the rational state
(the push-apart branch's `deltaPos.length()` and the engine's `randVector`)
are supplied as explicit oracle parameters.
-/

/-- JS helper `sign` from the source: `a < 0 ? -1 : 1` (note: `sign 0 = 1`). -/
def jsSign (a : ℚ) : ℚ := if a < 0 then -1 else 1

/-- JS helper `clamp` from the source: `v < min ? min : v > max ? max : v`. -/
def jsClamp (v lo hi : ℚ) : ℚ := if v < lo then lo else if v > hi then hi else v

/-- JS helper `lerp` from the source: `min + clamp(p) * (max - min)`. -/
def jsLerp (p a b : ℚ) : ℚ := a + jsClamp p 0 1 * (b - a)

/-- JS helper `max` from the source: `a > b ? a : b` (agrees with `max` on `ℚ`). -/
def jsMax (a b : ℚ) : ℚ := if a > b then a else b

/-- JS helper `abs` from the source: `a < 0 ? -a : a` (agrees with `|·|` on `ℚ`). -/
def jsAbs (a : ℚ) : ℚ := if a < 0 then -a else a

/-- The `Vector2` class of the source, over exact rationals. -/
structure Vector2 where
  x : ℚ
  y : ℚ
deriving DecidableEq, Repr

/-- Source `Vector2.add`. -/
def Vector2.add (a v : Vector2) : Vector2 := ⟨a.x + v.x, a.y + v.y⟩

/-- Source `Vector2.subtract`. -/
def Vector2.subtract (a v : Vector2) : Vector2 := ⟨a.x - v.x, a.y - v.y⟩

/-- Source `Vector2.multiply`. -/
def Vector2.multiply (a v : Vector2) : Vector2 := ⟨a.x * v.x, a.y * v.y⟩

/-- Source `Vector2.scale`. -/
def Vector2.scale (a : Vector2) (s : ℚ) : Vector2 := ⟨a.x * s, a.y * s⟩

/-- Source `Vector2.lengthSquared`. -/
def Vector2.lengthSquared (a : Vector2) : ℚ := a.x ^ 2 + a.y ^ 2

/-- Source `isOverlapping`:
`abs(pA.x - pB.x)*2 < sA.x + sB.x & abs(pA.y - pB.y)*2 < sA.y + sB.y`. -/
def isOverlapping (pA sA pB sB : Vector2) : Bool :=
  decide (jsAbs (pA.x - pB.x) * 2 < sA.x + sB.x) &&
  decide (jsAbs (pA.y - pB.y) * 2 < sA.y + sB.y)

/-!
## The object–object collision resolver (`EngineObject.update`, lines 691–765)

One iteration of the loop over `engineObjectsCollide`, for a pair that passed
the skip conditions.  `PairState` holds the mutable fields the iteration can
write: `this.pos`, `this.velocity`, the `this.groundObject = o` assignment
(as a flag), `o.pos` (never written, carried so that this is provable), and
`o.velocity`.  `PairParams` holds everything the iteration only reads.
-/

structure PairState where
  thisPos : Vector2
  thisVel : Vector2
  thisGround : Bool
  oPos : Vector2
  oVel : Vector2
deriving DecidableEq, Repr

structure PairParams where
  thisSize : Vector2
  oSize : Vector2
  thisMass : ℚ
  oMass : ℚ
  thisElasticity : ℚ
  oElasticity : ℚ
  gravity : ℚ
  oldPos : Vector2
  wasMovingDown : Bool
  oGround : Bool
  /-- oracle for `randVector(pushAwayAccel)` in the push-apart branch -/
  randV : Vector2
  /-- oracle for `deltaPos.length()` (a square root) in the push-apart branch -/
  deltaLength : ℚ
deriving Repr

/-- Lines 726–739 / 746–760: the inelastic and elastic velocity formulas for
one axis and the `lerp` blend by `max(this.elasticity, o.elasticity)`.
Returns (new `this` component, new `o` component). -/
def blendVelocities (m1 v1 m2 v2 e1 e2 : ℚ) : ℚ × ℚ :=
  let inelastic := (m1 * v1 + m2 * v2) / (m1 + m2)
  let elastic0 := v1 * (m1 - m2) / (m1 + m2) + v2 * 2 * m2 / (m1 + m2)
  let elastic1 := v2 * (m2 - m1) / (m1 + m2) + v1 * 2 * m1 / (m1 + m2)
  let elasticity := jsMax e1 e2
  (jsLerp elasticity inelastic elastic0, jsLerp elasticity inelastic elastic1)

/-- Line 708: `(oldPos.y - o.pos.y)*2 > sizeBoth.y + gravity`. -/
def smallStepUp (p : PairParams) (st : PairState) : Prop :=
  (p.oldPos.y - st.oPos.y) * 2 > (p.thisSize.add p.oSize).y + p.gravity

/-- Line 709: `abs(oldPos.y - o.pos.y)*2 < sizeBoth.y` (the bodies were
vertically overlapping at the previous position). -/
def isBlockedX (p : PairParams) (st : PairState) : Prop :=
  jsAbs (p.oldPos.y - st.oPos.y) * 2 < (p.thisSize.add p.oSize).y

/-- Line 710: `abs(oldPos.x - o.pos.x)*2 < sizeBoth.x` (the bodies were
horizontally overlapping at the previous position). -/
def isBlockedY (p : PairParams) (st : PairState) : Prop :=
  jsAbs (p.oldPos.x - st.oPos.x) * 2 < (p.thisSize.add p.oSize).x

/-- Line 712: `smallStepUp || isBlockedY || !isBlockedX` guards the y-resolution. -/
def resolveYCond (p : PairParams) (st : PairState) : Prop :=
  smallStepUp p st ∨ isBlockedY p st ∨ ¬ isBlockedX p st

/-- Line 742: `!smallStepUp && (isBlockedX || !isBlockedY)` guards the x-resolution. -/
def resolveXCond (p : PairParams) (st : PairState) : Prop :=
  ¬ smallStepUp p st ∧ (isBlockedX p st ∨ ¬ isBlockedY p st)

instance (p : PairParams) (st : PairState) : Decidable (smallStepUp p st) := by
  unfold smallStepUp; infer_instance

instance (p : PairParams) (st : PairState) : Decidable (isBlockedX p st) := by
  unfold isBlockedX; infer_instance

instance (p : PairParams) (st : PairState) : Decidable (isBlockedY p st) := by
  unfold isBlockedY; infer_instance

instance (p : PairParams) (st : PairState) : Decidable (resolveYCond p st) := by
  unfold resolveYCond; infer_instance

instance (p : PairParams) (st : PairState) : Decidable (resolveXCond p st) := by
  unfold resolveXCond; infer_instance

/-- Lines 713–740: resolve the y collision.  Push outside the other object,
then either bounce / set ground (if the other is grounded and we were moving
down, or the other is fixed) or run the blended momentum exchange. -/
def resolveYStep (p : PairParams) (st : PairState) : PairState :=
  let sizeBoth := p.thisSize.add p.oSize
  let st1 : PairState :=
    { st with thisPos :=
        ⟨st.thisPos.x,
         st.oPos.y + (sizeBoth.y / 2 + 1/1000) * jsSign (p.oldPos.y - st.oPos.y)⟩ }
  if (p.oGround ∧ p.wasMovingDown) ∨ p.oMass = 0 then
    let st2 := if p.wasMovingDown then { st1 with thisGround := true } else st1
    { st2 with thisVel := ⟨st2.thisVel.x, st2.thisVel.y * (-p.thisElasticity)⟩ }
  else if p.oMass ≠ 0 then
    let bv := blendVelocities p.thisMass st1.thisVel.y p.oMass st1.oVel.y
                p.thisElasticity p.oElasticity
    { st1 with thisVel := ⟨st1.thisVel.x, bv.1⟩, oVel := ⟨st1.oVel.x, bv.2⟩ }
  else st1

/-- Lines 742–764: resolve the x collision.  Push outside the other object,
then blend if the other is movable, else bounce off the fixed object. -/
def resolveXStep (p : PairParams) (st : PairState) : PairState :=
  let sizeBoth := p.thisSize.add p.oSize
  let st1 : PairState :=
    { st with thisPos :=
        ⟨st.oPos.x + (sizeBoth.x / 2 + 1/1000) * jsSign (p.oldPos.x - st.oPos.x),
         st.thisPos.y⟩ }
  if p.oMass ≠ 0 then
    let bv := blendVelocities p.thisMass st1.thisVel.x p.oMass st1.oVel.x
                p.thisElasticity p.oElasticity
    { st1 with thisVel := ⟨bv.1, st1.thisVel.y⟩, oVel := ⟨bv.2, st1.oVel.y⟩ }
  else
    { st1 with thisVel := ⟨st1.thisVel.x * (-p.thisElasticity), st1.thisVel.y⟩ }

/-- Lines 691–704: the bodies were already overlapping at the previous
position; add a small push-apart velocity (`randV` / `deltaLength` are the
oracles for the random direction and the square-root length). -/
def pushApartStep (p : PairParams) (st : PairState) : PairState :=
  let deltaPos := p.oldPos.subtract st.oPos
  let pushVel := if p.deltaLength < 1/100 then p.randV
                 else deltaPos.scale ((1/1000) / p.deltaLength)
  let st1 := { st with thisVel := st.thisVel.add pushVel }
  if p.oMass ≠ 0 then { st1 with oVel := st1.oVel.subtract pushVel } else st1

/-- Lines 707–764: a new overlap this tick; pick the axis (or both) by the
small-step-up / previous-separation heuristic and resolve. -/
def newOverlapStep (p : PairParams) (st : PairState) : PairState :=
  let st1 := if resolveYCond p st then resolveYStep p st else st
  if resolveXCond p st then resolveXStep p st1 else st1

/-- Lines 684–765: one iteration of the object–object collision loop after
the skip conditions, for the pair `(this, o)`. -/
def collidePair (p : PairParams) (st : PairState) : PairState :=
  if isOverlapping st.thisPos p.thisSize st.oPos p.oSize then
    if isOverlapping p.oldPos p.thisSize st.oPos p.oSize then
      pushApartStep p st
    else
      newOverlapStep p st
  else st

/-!
## The full physics update (`EngineObject.update`, lines 646–804)

`Ground` models the `groundObject` field: `0`/unset, a boolean `true` (set by
the tile resolver, line 783, when the body was moving down), or a reference to
the supporting object.  The source stores a live reference whose `velocity.x`
is read by the next tick's friction step (line 667); the embedding snapshots
that horizontal velocity at the end of the colliding pair's resolution.  No
theorem below depends on the snapshotted value, only on the field's truthiness.
-/

inductive Ground where
  | unset : Ground
  | tile : Ground
  | obj (velX : ℚ) : Ground
deriving DecidableEq, Repr

/-- Truthiness of `this.groundObject` in JS. -/
def Ground.truthy : Ground → Bool
  | .unset => false
  | _ => true

/-- The per-body state of `EngineObject` read and written by the physics part
of `update` (plus the flags the collision loop's skip conditions read). -/
structure Obj where
  pos : Vector2
  vel : Vector2
  size : Vector2
  mass : ℚ
  damping : ℚ
  elasticity : ℚ
  friction : ℚ
  gravityScale : ℚ
  angle : ℚ
  angleVelocity : ℚ
  angleDamping : ℚ
  ground : Ground
  collideSolidObjects : Bool
  isSolid : Bool
  collideTiles : Bool
  destroyed : Bool
  hasParent : Bool
deriving DecidableEq, Repr

/-- Lines 646–654: clamp velocity to `±objectMaxSpeed`, apply damping and
gravity, integrate position and angle. -/
def integrateStep (gravity maxSpeed : ℚ) (o : Obj) : Obj :=
  let vx := o.damping * jsClamp o.vel.x (-maxSpeed) maxSpeed
  let vy := o.damping * jsClamp o.vel.y (-maxSpeed) maxSpeed + gravity * o.gravityScale
  let av := o.angleVelocity * o.angleDamping
  { o with vel := ⟨vx, vy⟩, pos := ⟨o.pos.x + vx, o.pos.y + vy⟩,
           angleVelocity := av, angle := o.angle + av }

/-- Lines 664–671: if grounded from the previous tick, pull horizontal
velocity toward the ground's horizontal speed by `friction`, then clear the
ground reference (a boolean-valued ground, set by the tile resolver, has no
velocity, so its speed reads as `0`). -/
def frictionStep (o : Obj) : Obj :=
  match o.ground with
  | .unset => o
  | .tile =>
    { o with vel := ⟨0 + (o.vel.x - 0) * o.friction, o.vel.y⟩, ground := .unset }
  | .obj gvx =>
    { o with vel := ⟨gvx + (o.vel.x - gvx) * o.friction, o.vel.y⟩, ground := .unset }

/-- The part of the updating body's state threaded through the collision loop
and the tile resolver. -/
structure ThisState where
  pos : Vector2
  vel : Vector2
  ground : Ground
deriving DecidableEq, Repr

/-- Lines 680–765: one iteration of the loop over `engineObjectsCollide`.
The list of others excludes the updating body itself (the source's `o == this`
skip); `collideWithObject` is modelled by its default, which always resolves.
`orc` is the oracle pair (`randVector`, `deltaPos.length()`) for the
push-apart branch. -/
def collideOne (gravity : ℚ) (thisSize : Vector2) (thisMass thisElasticity : ℚ)
    (thisIsSolid : Bool) (oldPos : Vector2) (wasMovingDown : Bool)
    (orc : Vector2 × ℚ) (ts : ThisState) (o : Obj) : ThisState × Obj :=
  if (¬ thisIsSolid ∧ ¬ o.isSolid) ∨ o.destroyed ∨ o.hasParent then (ts, o)
  else
    let p : PairParams :=
      { thisSize := thisSize, oSize := o.size, thisMass := thisMass,
        oMass := o.mass, thisElasticity := thisElasticity,
        oElasticity := o.elasticity, gravity := gravity, oldPos := oldPos,
        wasMovingDown := wasMovingDown, oGround := o.ground.truthy,
        randV := orc.1, deltaLength := orc.2 }
    let st : PairState := ⟨ts.pos, ts.vel, false, o.pos, o.vel⟩
    let r := collidePair p st
    (⟨r.thisPos, r.thisVel, if r.thisGround then .obj r.oVel.x else ts.ground⟩,
     { o with vel := r.oVel })

/-- Lines 677–766: the loop over the collidable registry, in registry order,
threading the updating body's state and rebuilding the others' states. -/
def collideLoop (gravity : ℚ) (thisSize : Vector2) (thisMass thisElasticity : ℚ)
    (thisIsSolid : Bool) (oldPos : Vector2) (wasMovingDown : Bool)
    (orcs : Nat → Vector2 × ℚ) (i : Nat) (ts : ThisState) :
    List Obj → ThisState × List Obj
  | [] => (ts, [])
  | o :: rest =>
    let r := collideOne gravity thisSize thisMass thisElasticity thisIsSolid
      oldPos wasMovingDown (orcs i) ts o
    let rr := collideLoop gravity thisSize thisMass thisElasticity thisIsSolid
      oldPos wasMovingDown orcs (i + 1) r.1 rest
    (rr.1, r.2 :: rr.2)

/-- JS `x|0` truncation toward zero, for line 789 (32-bit wraparound for
magnitudes at least `2^31` is out of the modelled range). -/
def jsTrunc (q : ℚ) : ℤ := if q < 0 then ⌈q⌉ else ⌊q⌋

/-- Lines 768–804: the tile collision resolver.  `tileTest pos size` models
`tileCollisionTest(pos, size, this)` as a pure predicate of position and size
(the body argument is fixed throughout the call). -/
def tileResolve (tileTest : Vector2 → Vector2 → Bool) (gravity : ℚ)
    (size : Vector2) (damping gravityScale elasticity : ℚ)
    (oldPos : Vector2) (wasMovingDown : Bool) (ts : ThisState) : ThisState :=
  if tileTest ts.pos size then
    if ¬ tileTest oldPos size then
      let isBlockedYT := tileTest ⟨oldPos.x, ts.pos.y⟩ size
      let isBlockedXT := tileTest ⟨ts.pos.x, oldPos.y⟩ size
      let ts1 :=
        if isBlockedYT ∨ ¬ isBlockedXT then
          -- set if landed on ground; bounce; settle on the grid line; restore y
          let g : Ground := if wasMovingDown then .tile else .unset
          let vy := ts.vel.y * (-elasticity)
          let o : ℚ := (jsTrunc (oldPos.y - size.y / 2) : ℚ) - (oldPos.y - size.y / 2)
          let vy :=
            if o < 0 ∧ o > damping * vy + gravity * gravityScale then
              (if damping ≠ 0 then (o - gravity * gravityScale) / damping else 0)
            else vy
          { ts with pos := ⟨ts.pos.x, oldPos.y⟩, vel := ⟨ts.vel.x, vy⟩, ground := g }
        else ts
      if isBlockedXT then
        { ts1 with pos := ⟨oldPos.x, ts1.pos.y⟩,
                   vel := ⟨ts1.vel.x * (-elasticity), ts1.vel.y⟩ }
      else ts1
    else ts
  else ts

/-- Lines 646–804: `EngineObject.update` for a body without a parent (the
parent branch, lines 637–644, is a pure kinematic transform and is not
modelled).  `others` is the collidable registry without the updating body;
`enableSolver` is the `enablePhysicsSolver` engine setting. -/
def update (gravity maxSpeed : ℚ) (enableSolver : Bool) (this : Obj)
    (others : List Obj) (orcs : Nat → Vector2 × ℚ)
    (tileTest : Vector2 → Vector2 → Bool) : Obj × List Obj :=
  let oldPos := this.pos
  let this1 := integrateStep gravity maxSpeed this
  if ¬ enableSolver ∨ this1.mass = 0 then (this1, others)
  else
    let wasMovingDown := decide (this1.vel.y < 0)
    let this2 := frictionStep this1
    let ts : ThisState := ⟨this2.pos, this2.vel, this2.ground⟩
    let r :=
      if this2.collideSolidObjects then
        collideLoop gravity this2.size this2.mass this2.elasticity this2.isSolid
          oldPos wasMovingDown orcs 0 ts others
      else (ts, others)
    let ts2 :=
      if this2.collideTiles then
        tileResolve tileTest gravity this2.size this2.damping this2.gravityScale
          this2.elasticity oldPos wasMovingDown r.1
      else r.1
    ({ this2 with pos := ts2.pos, vel := ts2.vel, ground := ts2.ground }, r.2)

/-- Lines 849–851: `applyAcceleration(a)`: `if (this.mass) this.velocity = this.velocity.add(a)`. -/
def applyAcceleration (o : Obj) (a : Vector2) : Obj :=
  if o.mass ≠ 0 then { o with vel := o.vel.add a } else o

/-- Lines 853–855: `applyForce(force)`: `this.applyAcceleration(force.scale(1/this.mass))`.
(For `mass = 0` the scaled argument is discarded by the guard in
`applyAcceleration`, so its value is irrelevant.) -/
def applyForce (o : Obj) (force : Vector2) : Obj :=
  applyAcceleration o (force.scale (1 / o.mass))

/-!
## `EngineObject.destroy` (lines 814–825)

Only the `destroyed` flag and the parent/children relations matter here, so a
body is modelled as a tree node: its flag plus its (ordered) children.  The
children array is the mutually inductive `BodyForest`.  `destroy` checks the
flag, sets it, removes the body from its parent's children array
(`removeChild` splices at the child's index), and destroys each child after
clearing its parent pointer (`child.destroy(child.parent = 0)`), so the
children's recursive calls never touch the parent's array.
-/

mutual
inductive BodyTree where
  | node (destroyed : Bool) (children : BodyForest) : BodyTree
inductive BodyForest where
  | nil : BodyForest
  | cons (b : BodyTree) (rest : BodyForest) : BodyForest
end

def BodyTree.destroyed : BodyTree → Bool
  | .node d _ => d

def BodyTree.children : BodyTree → BodyForest
  | .node _ c => c

/-- Model of `Array.splice(indexOf(child), 1)` in `removeChild`: drop the entry at the
given index. -/
def eraseIdxF : BodyForest → Nat → BodyForest
  | .nil, _ => .nil
  | .cons _ rest, 0 => rest
  | .cons b rest, n + 1 => .cons b (eraseIdxF rest n)

mutual
/-- Recursive `destroy` of a body whose parent pointer is already cleared (the recursive
calls on children, line 824). -/
def destroySub : BodyTree → BodyTree
  | .node d cs => if d then .node d cs else .node true (destroySubF cs)
def destroySubF : BodyForest → BodyForest
  | .nil => .nil
  | .cons b rest => .cons (destroySub b) (destroySubF rest)
end

/-- Lines 814–825: `destroy()`.  `parent = some (siblings, i)` when the body
has a parent whose children array is `siblings` with this body at index `i`
(a live array reference in the source); `none` when unparented.  Returns the
body afterwards and the parent's children array afterwards. -/
def destroy (b : BodyTree) (parent : Option (BodyForest × Nat)) :
    BodyTree × Option BodyForest :=
  if b.destroyed then (b, parent.map Prod.fst)
  else (.node true (destroySubF b.children),
        parent.map fun pr => eraseIdxF pr.1 pr.2)

mutual
/-- Every node of the tree has its `destroyed` flag set. -/
def allDestroyed : BodyTree → Bool
  | .node d cs => d && allDestroyedF cs
def allDestroyedF : BodyForest → Bool
  | .nil => true
  | .cons b rest => allDestroyed b && allDestroyedF rest
end

mutual
/-- No node of the tree has its `destroyed` flag set. -/
def allAlive : BodyTree → Bool
  | .node d cs => !d && allAliveF cs
def allAliveF : BodyForest → Bool
  | .nil => true
  | .cons b rest => allAlive b && allAliveF rest
end

mutual
/-- Number of nodes in the tree. -/
def treeSize : BodyTree → Nat
  | .node _ cs => 1 + forestSize cs
def forestSize : BodyForest → Nat
  | .nil => 0
  | .cons b rest => treeSize b + forestSize rest
end

mutual
/-- Number of destroy actions (`destroyed = 1` writes) a `destroy` call fires
on the tree: an already-destroyed node returns early and fires none. -/
def destroyCount : BodyTree → Nat
  | .node d cs => if d then 0 else 1 + destroyCountF cs
def destroyCountF : BodyForest → Nat
  | .nil => 0
  | .cons b rest => destroyCount b + destroyCountF rest
end

/-!
## The square-root / trigonometric `Vector2` operations, over `ℝ`

`length`, `normalize`, `clampLength` and `setAngle` involve `sqrt`, `sin`,
`cos`, so this fragment of the `Vector2` class is embedded over the reals.
-/

structure Vec2R where
  x : ℝ
  y : ℝ

/-- Source `Vector2.scale` over `ℝ`. -/
noncomputable def Vec2R.scale (a : Vec2R) (s : ℝ) : Vec2R := ⟨a.x * s, a.y * s⟩

/-- Source `Vector2.lengthSquared`: `this.x**2 + this.y**2`. -/
noncomputable def Vec2R.lengthSquared (a : Vec2R) : ℝ := a.x ^ 2 + a.y ^ 2

/-- Source `Vector2.length`: `this.lengthSquared()**.5`. -/
noncomputable def Vec2R.length (a : Vec2R) : ℝ := Real.sqrt a.lengthSquared

open Classical in
/-- Line 258, `Vector2.normalize(length=1)`:
`const l = this.length(); return l ? this.scale(length/l) : new Vector2(length)`
(a fresh `Vector2(length)` has `y = 0`). -/
noncomputable def Vec2R.normalize (a : Vec2R) (len : ℝ) : Vec2R :=
  if a.length = 0 then ⟨len, 0⟩ else a.scale (len / a.length)

/-!
## Reference semantics of the `Vector2` operations

The aliasing / mutation claims are about object identity, which the pure
value type cannot express, so the three operations the claim names are also
modelled against an explicit store: `Vector2` instances live in a heap (a list
of values), an operation receives the receiver as an index into the heap and
returns the updated heap together with the index of the result.
-/

/-- Read a cell of the vector heap. -/
noncomputable def vget (s : List Vec2R) (r : Nat) : Vec2R := s.getD r ⟨0, 0⟩

/-- Allocation `new Vector2(...)`: append a fresh cell, return its index. -/
def valloc (s : List Vec2R) (v : Vec2R) : List Vec2R × Nat := (s ++ [v], s.length)

/-- Line 215, `Vector2.add`: reads both operands, allocates a new vector. -/
noncomputable def addOp (s : List Vec2R) (a v : Nat) : List Vec2R × Nat :=
  valloc s ⟨(vget s a).x + (vget s v).x, (vget s a).y + (vget s v).y⟩

open Classical in
/-- Line 263, `Vector2.clampLength(length=1)`:
`const l = this.length(); return l > length ? this.scale(length/l) : this;` —
in the else case the receiver itself is returned, not a copy. -/
noncomputable def clampLengthOp (s : List Vec2R) (a : Nat) (len : ℝ) :
    List Vec2R × Nat :=
  let l := (vget s a).length
  if l > len then valloc s ((vget s a).scale (len / l)) else (s, a)

/-- Line 282, `Vector2.setAngle(a=0, length=1)`:
`this.x = length*Math.sin(a); this.y = length*Math.cos(a); return this;` —
writes the receiver's fields in place and returns the receiver. -/
noncomputable def setAngleOp (s : List Vec2R) (a : Nat) (ang len : ℝ) :
    List Vec2R × Nat :=
  (s.set a ⟨len * Real.sin ang, len * Real.cos ang⟩, a)

/-!
## Sample concrete data for the evaluation witnesses
-/

def sampleObj : Obj :=
  { pos := ⟨0, 0⟩, vel := ⟨1, 2⟩, size := ⟨1, 1⟩, mass := 0, damping := 1,
    elasticity := 0, friction := 1, gravityScale := 1, angle := 0,
    angleVelocity := 0, angleDamping := 1, ground := .unset,
    collideSolidObjects := true, isSolid := true, collideTiles := true,
    destroyed := false, hasParent := false }

def sampleObjMassive : Obj := { sampleObj with mass := 2 }

/-- A tile world where everything strictly below `y = 0` is blocked. -/
def sampleTileTest : Vector2 → Vector2 → Bool := fun p _ => decide (p.y < 0)

/-!
## Claims
-/

/-- C10: For a body with `mass = 0`, `applyAcceleration` and `applyForce`
leave the body unchanged (the velocity addition is guarded on a nonzero mass);
for positive mass, `applyAcceleration` adds the given vector to the velocity
and `applyForce` adds the force scaled by `1/mass`. -/
theorem applyForce_mass_spec (o : Obj) (a force : Vector2) :
    (o.mass = 0 → applyAcceleration o a = o ∧ applyForce o force = o) ∧
    (0 < o.mass →
      (applyAcceleration o a).vel = o.vel.add a ∧
      (applyForce o force).vel = o.vel.add (force.scale (1 / o.mass))) := by
  constructor
  · intro h
    simp [applyAcceleration, applyForce, h]
  · intro h
    have hne : o.mass ≠ 0 := ne_of_gt h
    simp [applyAcceleration, applyForce, hne]

/-- Evaluation witness for `applyForce_mass_spec`: a fixed body (`mass = 0`)
ignores an applied acceleration; a body of mass `2` gains the acceleration. -/
theorem applyForce_mass_spec_witness :
    sampleObj.mass = 0 ∧ applyAcceleration sampleObj ⟨3, 4⟩ = sampleObj ∧
    0 < sampleObjMassive.mass ∧
    (applyAcceleration sampleObjMassive ⟨3, 4⟩).vel = sampleObjMassive.vel.add ⟨3, 4⟩ :=
  ⟨by decide,
   ((applyForce_mass_spec sampleObj ⟨3, 4⟩ ⟨3, 4⟩).1 (by decide)).1,
   by decide,
   ((applyForce_mass_spec sampleObjMassive ⟨3, 4⟩ ⟨3, 4⟩).2 (by decide)).1⟩

/-- C1: If the body's previous position did not overlap blocked tiles,
then whatever position the integration and object collisions produced, the
tile collision resolver's per-axis restore leaves a final position on which
`tileCollisionTest` is false. -/
theorem tileResolve_no_new_overlap (tileTest : Vector2 → Vector2 → Bool)
    (gravity : ℚ) (size : Vector2) (damping gravityScale elasticity : ℚ)
    (oldPos : Vector2) (wasMovingDown : Bool) (ts : ThisState)
    (h : tileTest oldPos size = false) :
    tileTest (tileResolve tileTest gravity size damping gravityScale elasticity
      oldPos wasMovingDown ts).pos size = false := by
  have hEta : (⟨oldPos.x, oldPos.y⟩ : Vector2) = oldPos := rfl
  unfold tileResolve
  by_cases h1 : tileTest ts.pos size = true
  · by_cases hY : tileTest ⟨oldPos.x, ts.pos.y⟩ size = true
    · by_cases hX : tileTest ⟨ts.pos.x, oldPos.y⟩ size = true
      · simp [h, h1, hY, hX, hEta]
      · simp [h, h1, hY, hX]
    · by_cases hX : tileTest ⟨ts.pos.x, oldPos.y⟩ size = true
      · simp [h, h1, hY, hX, hEta]
      · simp [h, h1, hY, hX]
  · simp only [Bool.not_eq_true] at h1
    simp [h1]

/-- Evaluation witness for `tileResolve_no_new_overlap`: a body that fell from
`(0, 2)` to `(0, -1)` into the blocked half-plane `y < 0` is restored to a
non-blocked position. -/
theorem tileResolve_no_new_overlap_witness :
    sampleTileTest ⟨0, 2⟩ ⟨1, 1⟩ = false ∧
    sampleTileTest (tileResolve sampleTileTest 0 ⟨1, 1⟩ 1 1 (1/2) ⟨0, 2⟩ true
      ⟨⟨0, -1⟩, ⟨0, -3⟩, .unset⟩).pos ⟨1, 1⟩ = false :=
  ⟨by decide,
   tileResolve_no_new_overlap sampleTileTest 0 ⟨1, 1⟩ 1 1 (1/2) ⟨0, 2⟩ true
     ⟨⟨0, -1⟩, ⟨0, -3⟩, .unset⟩ (by decide)⟩

/-- C8: `normalize L` (for a requested length `L ≥ 0`) maps the zero
vector to `(L, 0)`, a deterministic vector of length `L` (no division by zero
happens: the zero-length case is handled by its own branch), and maps every
nonzero vector to a vector of length `L` that is a nonnegative multiple of the
original (same direction). -/
theorem normalize_spec (L : ℝ) (hL : 0 ≤ L) (v : Vec2R) (hv : v ≠ ⟨0, 0⟩) :
    (Vec2R.normalize ⟨0, 0⟩ L = ⟨L, 0⟩ ∧ (Vec2R.normalize ⟨0, 0⟩ L).length = L) ∧
    ((v.normalize L).length = L ∧ ∃ c : ℝ, 0 ≤ c ∧ v.normalize L = v.scale c) := by
  have hzlen : (⟨0, 0⟩ : Vec2R).length = 0 := by
    simp [Vec2R.length, Vec2R.lengthSquared]
  have hscale_len : ∀ (w : Vec2R) (c : ℝ), 0 ≤ c → (w.scale c).length = c * w.length := by
    intro w c hc
    simp only [Vec2R.length, Vec2R.lengthSquared, Vec2R.scale]
    have : (w.x * c) ^ 2 + (w.y * c) ^ 2 = c ^ 2 * (w.x ^ 2 + w.y ^ 2) := by ring
    rw [this, Real.sqrt_mul (sq_nonneg c), Real.sqrt_sq hc]
  have hvlen : v.length ≠ 0 := by
    intro h0
    apply hv
    have hle : v.x ^ 2 + v.y ^ 2 ≤ 0 := by
      have := Real.sqrt_eq_zero'.mp h0
      simpa [Vec2R.lengthSquared] using this
    have hx : v.x = 0 := by nlinarith [sq_nonneg v.x, sq_nonneg v.y]
    have hy : v.y = 0 := by nlinarith [sq_nonneg v.x, sq_nonneg v.y]
    cases v
    simp_all
  have hvpos : 0 < v.length := by
    rcases lt_or_eq_of_le (Real.sqrt_nonneg v.lengthSquared) with h' | h'
    · exact h'
    · exact absurd h'.symm hvlen
  constructor
  · constructor
    · simp [Vec2R.normalize, hzlen]
    · have h1 : Vec2R.normalize ⟨0, 0⟩ L = ⟨L, 0⟩ := by simp [Vec2R.normalize, hzlen]
      rw [h1]
      simp only [Vec2R.length, Vec2R.lengthSquared]
      rw [show L ^ 2 + (0:ℝ) ^ 2 = L ^ 2 by ring, Real.sqrt_sq hL]
  · have hnorm : v.normalize L = v.scale (L / v.length) := by
      simp [Vec2R.normalize, hvlen]
    constructor
    · rw [hnorm, hscale_len v _ (div_nonneg hL hvpos.le)]
      field_simp
    · exact ⟨L / v.length, div_nonneg hL hvpos.le, hnorm⟩

/-- Evaluation witness for `normalize_spec`: requested length `2`, nonzero
vector `(3, 4)` (length `5`), normalized to `(6/5, 8/5)`. -/
theorem normalize_spec_witness :
    (0 : ℝ) ≤ 2 ∧ (⟨3, 4⟩ : Vec2R) ≠ ⟨0, 0⟩ ∧
    (Vec2R.normalize ⟨0, 0⟩ 2 = ⟨2, 0⟩ ∧
      ((⟨3, 4⟩ : Vec2R).normalize 2).length = 2) := by
  have h2 : (0 : ℝ) ≤ 2 := by norm_num
  have hv : (⟨3, 4⟩ : Vec2R) ≠ ⟨0, 0⟩ := by
    intro h
    have := congrArg Vec2R.x h
    norm_num at this
  have main := normalize_spec 2 h2 ⟨3, 4⟩ hv
  exact ⟨h2, hv, main.1.1, main.2.1⟩

/-- The source's `max` agrees with `max` on `ℚ`. -/
theorem jsMax_eq_max (a b : ℚ) : jsMax a b = max a b := by
  unfold jsMax
  rcases le_or_lt a b with h | h
  · rw [if_neg (not_lt.mpr h), max_eq_right h]
  · rw [if_pos h, max_eq_left h.le]

/-- The source's `abs` agrees with `|·|` on `ℚ`. -/
theorem jsAbs_eq_abs (a : ℚ) : jsAbs a = |a| := by
  unfold jsAbs
  rcases lt_or_le a 0 with h | h
  · rw [if_pos h, abs_of_neg h]
  · rw [if_neg (not_lt.mpr h), abs_of_nonneg h]

/-- The y-resolution step writes only y-components of the velocities (and the
push writes `thisPos.y`); the x-components and the other body's position are
untouched. -/
theorem resolveYStep_preserves_x (p : PairParams) (st : PairState) :
    (resolveYStep p st).thisVel.x = st.thisVel.x ∧
    (resolveYStep p st).oVel.x = st.oVel.x ∧
    (resolveYStep p st).oPos = st.oPos := by
  unfold resolveYStep
  split_ifs <;> simp

/-- The x-resolution step writes only x-components of the velocities; the
y-components and the other body's position are untouched. -/
theorem resolveXStep_preserves_y (p : PairParams) (st : PairState) :
    (resolveXStep p st).thisVel.y = st.thisVel.y ∧
    (resolveXStep p st).oVel.y = st.oVel.y ∧
    (resolveXStep p st).oPos = st.oPos := by
  unfold resolveXStep
  split_ifs <;> simp

/-- When the two colliding bodies passed the overlap tests as a new overlap,
`collidePair` runs the axis-selection step. -/
theorem collidePair_new_overlap (p : PairParams) (st : PairState)
    (hnow : isOverlapping st.thisPos p.thisSize st.oPos p.oSize = true)
    (hold : isOverlapping p.oldPos p.thisSize st.oPos p.oSize = false) :
    collidePair p st = newOverlapStep p st := by
  simp [collidePair, hnow, hold]

/-- With both elasticities `0`, the blend returns the inelastic common
velocity for both bodies. -/
theorem blendVelocities_inelastic (m1 v1 m2 v2 : ℚ) :
    blendVelocities m1 v1 m2 v2 0 0 =
      ((m1 * v1 + m2 * v2) / (m1 + m2), (m1 * v1 + m2 * v2) / (m1 + m2)) := by
  simp [blendVelocities, jsMax, jsLerp, jsClamp]

/-- With equal positive masses and a blend factor of `1`, the blend swaps the
two velocity components. -/
theorem blendVelocities_swap (m v1 v2 e1 e2 : ℚ) (hm : 0 < m)
    (he : max e1 e2 = 1) :
    blendVelocities m v1 m v2 e1 e2 = (v2, v1) := by
  have hm2 : m + m ≠ 0 := by positivity
  have hjs : jsMax e1 e2 = 1 := by rw [jsMax_eq_max, he]
  have hclamp : jsClamp 1 0 1 = 1 := by norm_num [jsClamp]
  simp only [blendVelocities, hjs, jsLerp, hclamp, one_mul]
  rw [Prod.mk.injEq]
  constructor <;> (field_simp; ring)

/-- C2: For a new overlap between two movable bodies with both
elasticities `0`, the blended response on the resolved axis gives both bodies
the momentum-conserving common velocity `(m1*v1 + m2*v2)/(m1 + m2)` on that
axis (for the y-axis, provided the grounded-bounce branch is not taken). -/
theorem inelastic_common_velocity (p : PairParams) (st : PairState)
    (hnow : isOverlapping st.thisPos p.thisSize st.oPos p.oSize = true)
    (hold : isOverlapping p.oldPos p.thisSize st.oPos p.oSize = false)
    (hm1 : 0 < p.thisMass) (hm2 : 0 < p.oMass)
    (he1 : p.thisElasticity = 0) (he2 : p.oElasticity = 0) :
    (resolveYCond p st → ¬ (p.oGround ∧ p.wasMovingDown) →
      (collidePair p st).thisVel.y
          = (p.thisMass * st.thisVel.y + p.oMass * st.oVel.y) / (p.thisMass + p.oMass) ∧
      (collidePair p st).oVel.y
          = (p.thisMass * st.thisVel.y + p.oMass * st.oVel.y) / (p.thisMass + p.oMass)) ∧
    (resolveXCond p st →
      (collidePair p st).thisVel.x
          = (p.thisMass * st.thisVel.x + p.oMass * st.oVel.x) / (p.thisMass + p.oMass) ∧
      (collidePair p st).oVel.x
          = (p.thisMass * st.thisVel.x + p.oMass * st.oVel.x) / (p.thisMass + p.oMass)) := by
  have hm2' : p.oMass ≠ 0 := ne_of_gt hm2
  rw [collidePair_new_overlap p st hnow hold]
  constructor
  · intro hY hg
    have hYstep : (resolveYStep p st).thisVel.y
          = (p.thisMass * st.thisVel.y + p.oMass * st.oVel.y) / (p.thisMass + p.oMass) ∧
        (resolveYStep p st).oVel.y
          = (p.thisMass * st.thisVel.y + p.oMass * st.oVel.y) / (p.thisMass + p.oMass) := by
      have hcond : ¬ ((p.oGround ∧ p.wasMovingDown) ∨ p.oMass = 0) := by
        rintro (h | h)
        · exact hg h
        · exact hm2' h
      unfold resolveYStep
      rw [if_neg hcond, if_pos hm2']
      rw [he1, he2, blendVelocities_inelastic]
      exact ⟨rfl, rfl⟩
    unfold newOverlapStep
    rw [if_pos hY]
    by_cases hX : resolveXCond p st
    · rw [if_pos hX]
      rcases resolveXStep_preserves_y p (resolveYStep p st) with ⟨ha, hb, _⟩
      rw [ha, hb]
      exact hYstep
    · rw [if_neg hX]
      exact hYstep
  · intro hX
    unfold newOverlapStep
    rw [if_pos hX]
    set st1 := if resolveYCond p st then resolveYStep p st else st with hst1
    have hx1 : st1.thisVel.x = st.thisVel.x ∧ st1.oVel.x = st.oVel.x := by
      rw [hst1]
      by_cases hY : resolveYCond p st
      · rw [if_pos hY]
        rcases resolveYStep_preserves_x p st with ⟨ha, hb, _⟩
        exact ⟨ha, hb⟩
      · rw [if_neg hY]
        exact ⟨rfl, rfl⟩
    unfold resolveXStep
    rw [if_pos hm2']
    rw [he1, he2, blendVelocities_inelastic]
    exact ⟨by rw [hx1.1, hx1.2], by rw [hx1.1, hx1.2]⟩

/-- A head-on vertical approach: both boxes `1×1`, the updating body fell
from `(0, 2)` to `(0, 9/10)` onto the other at the origin. -/
def samplePairP : PairParams :=
  { thisSize := ⟨1, 1⟩, oSize := ⟨1, 1⟩, thisMass := 1, oMass := 1,
    thisElasticity := 0, oElasticity := 0, gravity := 0, oldPos := ⟨0, 2⟩,
    wasMovingDown := true, oGround := false, randV := ⟨0, 0⟩, deltaLength := 2 }

/-- The same approach with elasticity `1` on both bodies. -/
def samplePairPElastic : PairParams :=
  { samplePairP with thisElasticity := 1, oElasticity := 1 }

def samplePairSt : PairState := ⟨⟨0, 9/10⟩, ⟨0, -1⟩, false, ⟨0, 0⟩, ⟨0, 1⟩⟩

/-- The bodies overlap at the new position. -/
theorem samplePair_overlap_now :
    isOverlapping samplePairSt.thisPos samplePairP.thisSize samplePairSt.oPos
      samplePairP.oSize = true := by
  norm_num [isOverlapping, jsAbs, samplePairP, samplePairSt]

/-- The bodies did not overlap at the previous position. -/
theorem samplePair_overlap_old :
    isOverlapping samplePairP.oldPos samplePairP.thisSize samplePairSt.oPos
      samplePairP.oSize = false := by
  norm_num [isOverlapping, jsAbs, samplePairP, samplePairSt]

/-- The y-axis is selected for resolution on the sample pair. -/
theorem samplePair_resolveY : resolveYCond samplePairP samplePairSt := by
  norm_num [resolveYCond, smallStepUp, isBlockedX, isBlockedY, Vector2.add,
    jsAbs, samplePairP, samplePairSt]

/-- Evaluation witness for `inelastic_common_velocity`: masses `1` and `1`,
elasticities `0`, a new vertical overlap; both bodies end with the common
y-velocity `0`. -/
theorem inelastic_common_velocity_witness :
    (collidePair samplePairP samplePairSt).thisVel.y = 0 ∧
    (collidePair samplePairP samplePairSt).oVel.y = 0 := by
  have h := inelastic_common_velocity samplePairP samplePairSt
    samplePair_overlap_now samplePair_overlap_old
    (by norm_num [samplePairP]) (by norm_num [samplePairP]) rfl rfl
  have h2 := h.1 samplePair_resolveY (by simp [samplePairP])
  refine ⟨?_, ?_⟩
  · rw [h2.1]; norm_num [samplePairP, samplePairSt]
  · rw [h2.2]; norm_num [samplePairP, samplePairSt]

/-- C3: For a new overlap between two bodies of equal positive mass with
`max` elasticity `1`, the blended response on the resolved axis exchanges the
two bodies' velocity components on that axis. -/
theorem elastic_swap_velocity (p : PairParams) (st : PairState)
    (hnow : isOverlapping st.thisPos p.thisSize st.oPos p.oSize = true)
    (hold : isOverlapping p.oldPos p.thisSize st.oPos p.oSize = false)
    (hm : p.oMass = p.thisMass) (hm1 : 0 < p.thisMass)
    (he : max p.thisElasticity p.oElasticity = 1) :
    (resolveYCond p st → ¬ (p.oGround ∧ p.wasMovingDown) →
      (collidePair p st).thisVel.y = st.oVel.y ∧
      (collidePair p st).oVel.y = st.thisVel.y) ∧
    (resolveXCond p st →
      (collidePair p st).thisVel.x = st.oVel.x ∧
      (collidePair p st).oVel.x = st.thisVel.x) := by
  have hm2' : p.oMass ≠ 0 := by rw [hm]; exact ne_of_gt hm1
  rw [collidePair_new_overlap p st hnow hold]
  constructor
  · intro hY hg
    have hYstep : (resolveYStep p st).thisVel.y = st.oVel.y ∧
        (resolveYStep p st).oVel.y = st.thisVel.y := by
      have hcond : ¬ ((p.oGround ∧ p.wasMovingDown) ∨ p.oMass = 0) := by
        rintro (h | h)
        · exact hg h
        · exact hm2' h
      unfold resolveYStep
      rw [if_neg hcond, if_pos hm2']
      rw [hm, blendVelocities_swap p.thisMass _ _ _ _ hm1 he]
      exact ⟨rfl, rfl⟩
    unfold newOverlapStep
    rw [if_pos hY]
    by_cases hX : resolveXCond p st
    · rw [if_pos hX]
      rcases resolveXStep_preserves_y p (resolveYStep p st) with ⟨ha, hb, _⟩
      rw [ha, hb]
      exact hYstep
    · rw [if_neg hX]
      exact hYstep
  · intro hX
    unfold newOverlapStep
    rw [if_pos hX]
    set st1 := if resolveYCond p st then resolveYStep p st else st with hst1
    have hx1 : st1.thisVel.x = st.thisVel.x ∧ st1.oVel.x = st.oVel.x := by
      rw [hst1]
      by_cases hY : resolveYCond p st
      · rw [if_pos hY]
        rcases resolveYStep_preserves_x p st with ⟨ha, hb, _⟩
        exact ⟨ha, hb⟩
      · rw [if_neg hY]
        exact ⟨rfl, rfl⟩
    unfold resolveXStep
    rw [if_pos hm2']
    rw [hm, blendVelocities_swap p.thisMass _ _ _ _ hm1 he]
    exact ⟨hx1.2, hx1.1⟩

/-- Evaluation witness for `elastic_swap_velocity`: the spec's scenario —
masses `1`/`1`, elasticity `1`, the bodies approach at `(0, -1)` and `(0, 1)`;
after the resolved tick the y-velocities are exchanged. -/
theorem elastic_swap_velocity_witness :
    (collidePair samplePairPElastic samplePairSt).thisVel.y = 1 ∧
    (collidePair samplePairPElastic samplePairSt).oVel.y = -1 := by
  have hnow : isOverlapping samplePairSt.thisPos samplePairPElastic.thisSize
      samplePairSt.oPos samplePairPElastic.oSize = true := by
    norm_num [isOverlapping, jsAbs, samplePairP, samplePairPElastic, samplePairSt]
  have hold : isOverlapping samplePairPElastic.oldPos samplePairPElastic.thisSize
      samplePairSt.oPos samplePairPElastic.oSize = false := by
    norm_num [isOverlapping, jsAbs, samplePairP, samplePairPElastic, samplePairSt]
  have h := elastic_swap_velocity samplePairPElastic samplePairSt hnow hold
    rfl (by norm_num [samplePairP, samplePairPElastic])
    (by norm_num [samplePairP, samplePairPElastic])
  have h2 := h.1
    (by norm_num [resolveYCond, smallStepUp, isBlockedX, isBlockedY, Vector2.add,
      jsAbs, samplePairP, samplePairPElastic, samplePairSt])
    (by simp [samplePairP, samplePairPElastic])
  have e1 : samplePairSt.oVel.y = 1 := rfl
  have e2 : samplePairSt.thisVel.y = -1 := rfl
  exact ⟨by rw [h2.1, e1], by rw [h2.2, e2]⟩

/-- C5: For a new overlap, the y-resolution runs exactly when twice the
(signed) vertical gap between the previous positions exceeds the combined
height plus gravity (small step-up), or the bodies were horizontally
overlapping at the previous position, or they were not vertically overlapping
there; the x-resolution runs exactly when there is no small step-up and the
bodies were vertically overlapping at the previous position or not
horizontally overlapping there. -/
theorem axis_selection_priority (p : PairParams) (st : PairState)
    (hnow : isOverlapping st.thisPos p.thisSize st.oPos p.oSize = true)
    (hold : isOverlapping p.oldPos p.thisSize st.oPos p.oSize = false) :
    (resolveYCond p st ↔
      ((p.oldPos.y - st.oPos.y) * 2 > p.thisSize.y + p.oSize.y + p.gravity ∨
       |p.oldPos.x - st.oPos.x| * 2 < p.thisSize.x + p.oSize.x ∨
       ¬ |p.oldPos.y - st.oPos.y| * 2 < p.thisSize.y + p.oSize.y)) ∧
    (resolveXCond p st ↔
      (¬ (p.oldPos.y - st.oPos.y) * 2 > p.thisSize.y + p.oSize.y + p.gravity ∧
       (|p.oldPos.y - st.oPos.y| * 2 < p.thisSize.y + p.oSize.y ∨
        ¬ |p.oldPos.x - st.oPos.x| * 2 < p.thisSize.x + p.oSize.x))) ∧
    collidePair p st =
      (if (p.oldPos.y - st.oPos.y) * 2 > p.thisSize.y + p.oSize.y + p.gravity ∨
          |p.oldPos.x - st.oPos.x| * 2 < p.thisSize.x + p.oSize.x ∨
          ¬ |p.oldPos.y - st.oPos.y| * 2 < p.thisSize.y + p.oSize.y
       then
        (if ¬ (p.oldPos.y - st.oPos.y) * 2 > p.thisSize.y + p.oSize.y + p.gravity ∧
            (|p.oldPos.y - st.oPos.y| * 2 < p.thisSize.y + p.oSize.y ∨
             ¬ |p.oldPos.x - st.oPos.x| * 2 < p.thisSize.x + p.oSize.x)
         then resolveXStep p (resolveYStep p st) else resolveYStep p st)
       else
        (if ¬ (p.oldPos.y - st.oPos.y) * 2 > p.thisSize.y + p.oSize.y + p.gravity ∧
            (|p.oldPos.y - st.oPos.y| * 2 < p.thisSize.y + p.oSize.y ∨
             ¬ |p.oldPos.x - st.oPos.x| * 2 < p.thisSize.x + p.oSize.x)
         then resolveXStep p st else st)) := by
  have hYiff : resolveYCond p st ↔
      ((p.oldPos.y - st.oPos.y) * 2 > p.thisSize.y + p.oSize.y + p.gravity ∨
       |p.oldPos.x - st.oPos.x| * 2 < p.thisSize.x + p.oSize.x ∨
       ¬ |p.oldPos.y - st.oPos.y| * 2 < p.thisSize.y + p.oSize.y) := by
    simp only [resolveYCond, smallStepUp, isBlockedX, isBlockedY, Vector2.add,
      jsAbs_eq_abs]
  have hXiff : resolveXCond p st ↔
      (¬ (p.oldPos.y - st.oPos.y) * 2 > p.thisSize.y + p.oSize.y + p.gravity ∧
       (|p.oldPos.y - st.oPos.y| * 2 < p.thisSize.y + p.oSize.y ∨
        ¬ |p.oldPos.x - st.oPos.x| * 2 < p.thisSize.x + p.oSize.x)) := by
    simp only [resolveXCond, smallStepUp, isBlockedX, isBlockedY, Vector2.add,
      jsAbs_eq_abs]
  refine ⟨hYiff, hXiff, ?_⟩
  rw [collidePair_new_overlap p st hnow hold]
  unfold newOverlapStep
  by_cases hY : resolveYCond p st <;> by_cases hX : resolveXCond p st
  · rw [if_pos hY, if_pos hX, if_pos (hYiff.mp hY), if_pos (hXiff.mp hX)]
  · rw [if_pos hY, if_neg hX, if_pos (hYiff.mp hY),
      if_neg (fun h => hX (hXiff.mpr h))]
  · rw [if_neg hY, if_pos hX, if_neg (fun h => hY (hYiff.mpr h)),
      if_pos (hXiff.mp hX)]
  · rw [if_neg hY, if_neg hX, if_neg (fun h => hY (hYiff.mpr h)),
      if_neg (fun h => hX (hXiff.mpr h))]

/-- Evaluation witness for `axis_selection_priority`: the vertical approach
scenario resolves the y-axis (the bodies were horizontally overlapping at the
previous position) and not the x-axis (a small step-up holds). -/
theorem axis_selection_priority_witness :
    resolveYCond samplePairP samplePairSt ∧
    ¬ resolveXCond samplePairP samplePairSt := by
  have h := axis_selection_priority samplePairP samplePairSt
    samplePair_overlap_now samplePair_overlap_old
  refine ⟨h.1.mpr ?_, fun hx => ?_⟩
  · right; left
    norm_num [samplePairP, samplePairSt]
  · have hc := h.2.1.mp hx
    apply hc.1
    norm_num [samplePairP, samplePairSt]

/-- The solver gate (line 660): a body with `mass = 0` returns right after
integration — the object loop and the tile resolver never run for it, and the
other bodies are untouched. -/
theorem update_zero_mass (gravity maxSpeed : ℚ) (enableSolver : Bool)
    (this : Obj) (others : List Obj) (orcs : Nat → Vector2 × ℚ)
    (tileTest : Vector2 → Vector2 → Bool) (h : this.mass = 0) :
    update gravity maxSpeed enableSolver this others orcs tileTest =
      (integrateStep gravity maxSpeed this, others) := by
  have hmass : (integrateStep gravity maxSpeed this).mass = 0 := h
  unfold update
  rw [if_pos (Or.inr hmass)]

/-- A zero-mass other body's velocity is never written by the pair
resolution: the push-apart subtraction and both blend branches are guarded on
`o.mass`. -/
theorem collidePair_oVel_zero_mass (p : PairParams) (st : PairState)
    (h : p.oMass = 0) : (collidePair p st).oVel = st.oVel := by
  have hne : ¬ p.oMass ≠ 0 := fun hh => hh h
  have hY : ∀ s : PairState, (resolveYStep p s).oVel = s.oVel := by
    intro s
    unfold resolveYStep
    rw [if_pos (Or.inr h)]
    split_ifs <;> rfl
  have hX : ∀ s : PairState, (resolveXStep p s).oVel = s.oVel := by
    intro s
    unfold resolveXStep
    rw [if_neg hne]
  have hP : (pushApartStep p st).oVel = st.oVel := by
    unfold pushApartStep
    rw [if_neg hne]
  unfold collidePair newOverlapStep
  split_ifs <;> simp [hY, hX, hP]

/-- The other body's position is never written by the pair resolution, for
any masses. -/
theorem collidePair_oPos_unchanged (p : PairParams) (st : PairState) :
    (collidePair p st).oPos = st.oPos := by
  have hY : ∀ s : PairState, (resolveYStep p s).oPos = s.oPos := by
    intro s
    unfold resolveYStep
    split_ifs <;> rfl
  have hX : ∀ s : PairState, (resolveXStep p s).oPos = s.oPos := by
    intro s
    unfold resolveXStep
    split_ifs <;> rfl
  have hP : (pushApartStep p st).oPos = st.oPos := by
    unfold pushApartStep
    split_ifs <;> rfl
  unfold collidePair newOverlapStep
  split_ifs <;> simp [hY, hX, hP]

/-- A zero-mass other body passes through one loop iteration entirely
unchanged. -/
theorem collideOne_zero_mass (gravity : ℚ) (thisSize : Vector2)
    (thisMass thisElasticity : ℚ) (thisIsSolid : Bool) (oldPos : Vector2)
    (wasMovingDown : Bool) (orc : Vector2 × ℚ) (ts : ThisState) (o : Obj)
    (h : o.mass = 0) :
    (collideOne gravity thisSize thisMass thisElasticity thisIsSolid oldPos
      wasMovingDown orc ts o).2 = o := by
  unfold collideOne
  by_cases hskip : (¬ thisIsSolid ∧ ¬ o.isSolid) ∨ o.destroyed ∨ o.hasParent
  · rw [if_pos hskip]
  · rw [if_neg hskip]
    simp only []
    rw [collidePair_oVel_zero_mass _ _ h]

/-- C4: A body with `mass = 0` is unaffected by object–object collision
response: as the updating body the solver is skipped entirely (the update is
exactly the integration and the partner list is returned as is), and as the
other body of a collision neither its velocity nor its position is written. -/
theorem zero_mass_bodies_untouched :
    (∀ (gravity maxSpeed : ℚ) (enableSolver : Bool) (this : Obj)
        (others : List Obj) (orcs : Nat → Vector2 × ℚ)
        (tileTest : Vector2 → Vector2 → Bool),
      this.mass = 0 →
      update gravity maxSpeed enableSolver this others orcs tileTest =
        (integrateStep gravity maxSpeed this, others)) ∧
    (∀ (gravity : ℚ) (thisSize : Vector2) (thisMass thisElasticity : ℚ)
        (thisIsSolid : Bool) (oldPos : Vector2) (wasMovingDown : Bool)
        (orc : Vector2 × ℚ) (ts : ThisState) (o : Obj),
      o.mass = 0 →
      (collideOne gravity thisSize thisMass thisElasticity thisIsSolid oldPos
        wasMovingDown orc ts o).2 = o) ∧
    (∀ (p : PairParams) (st : PairState), (collidePair p st).oPos = st.oPos) :=
  ⟨update_zero_mass, collideOne_zero_mass, collidePair_oPos_unchanged⟩

/-- Evaluation witness for `zero_mass_bodies_untouched`: a fixed sample body
updates to its integrated state with the partner list unchanged, and passes
through a loop iteration unchanged as the other body. -/
theorem zero_mass_bodies_untouched_witness :
    sampleObj.mass = 0 ∧
    update 0 100 true sampleObj [sampleObjMassive] (fun _ => (⟨0, 0⟩, 0))
      sampleTileTest = (integrateStep 0 100 sampleObj, [sampleObjMassive]) ∧
    (collideOne 0 ⟨1, 1⟩ 2 0 true ⟨0, 2⟩ true (⟨0, 0⟩, 0)
      ⟨⟨0, 1⟩, ⟨0, -1⟩, .unset⟩ sampleObj).2 = sampleObj :=
  ⟨rfl,
   zero_mass_bodies_untouched.1 0 100 true sampleObj [sampleObjMassive]
     (fun _ => (⟨0, 0⟩, 0)) sampleTileTest rfl,
   zero_mass_bodies_untouched.2.1 0 ⟨1, 1⟩ 2 0 true ⟨0, 2⟩ true (⟨0, 0⟩, 0)
     ⟨⟨0, 1⟩, ⟨0, -1⟩, .unset⟩ sampleObj rfl⟩

/-- C6: The mass-ratio formulas never divide by zero: the solver gate
returns zero-mass updating bodies before the loop, so `this.mass ≠ 0` there,
and with nonnegative masses the denominator `this.mass + o.mass` of
`blendVelocities` is strictly positive. -/
theorem mass_denominator_positive :
    (∀ (gravity maxSpeed : ℚ) (enableSolver : Bool) (this : Obj)
        (others : List Obj) (orcs : Nat → Vector2 × ℚ)
        (tileTest : Vector2 → Vector2 → Bool),
      this.mass = 0 →
      update gravity maxSpeed enableSolver this others orcs tileTest =
        (integrateStep gravity maxSpeed this, others)) ∧
    (∀ p : PairParams, 0 ≤ p.thisMass → 0 ≤ p.oMass → p.thisMass ≠ 0 →
      0 < p.thisMass + p.oMass) := by
  refine ⟨update_zero_mass, fun p h1 h2 hne => ?_⟩
  have := lt_of_le_of_ne h1 (Ne.symm hne)
  linarith

/-- Evaluation witness for `mass_denominator_positive`: the sample pair's
denominator is positive, and the zero-mass gate fires on the sample body. -/
theorem mass_denominator_positive_witness :
    (0 : ℚ) ≤ samplePairP.thisMass ∧ (0 : ℚ) ≤ samplePairP.oMass ∧
    samplePairP.thisMass ≠ 0 ∧ 0 < samplePairP.thisMass + samplePairP.oMass ∧
    sampleObj.mass = 0 ∧
    update 0 100 true sampleObj [] (fun _ => (⟨0, 0⟩, 0)) sampleTileTest =
      (integrateStep 0 100 sampleObj, []) := by
  have h1 : (0 : ℚ) ≤ samplePairP.thisMass := by norm_num [samplePairP]
  have h2 : (0 : ℚ) ≤ samplePairP.oMass := by norm_num [samplePairP]
  have h3 : samplePairP.thisMass ≠ 0 := by norm_num [samplePairP]
  exact ⟨h1, h2, h3, mass_denominator_positive.2 samplePairP h1 h2 h3, rfl,
    mass_denominator_positive.1 0 100 true sampleObj [] (fun _ => (⟨0, 0⟩, 0))
      sampleTileTest rfl⟩

/-- After any `destroy` call the body's flag is set (it either already was,
or the call sets it). -/
theorem destroy_fst_destroyed (b : BodyTree) (pr : Option (BodyForest × Nat)) :
    (destroy b pr).1.destroyed = true := by
  unfold destroy
  by_cases hb : b.destroyed = true
  · rw [if_pos hb]
    exact hb
  · rw [if_neg hb]
    rfl

mutual
/-- Destroying a fully alive body marks every node of its subtree. -/
theorem destroySub_allDestroyed : (b : BodyTree) → allAlive b = true →
    allDestroyed (destroySub b) = true
  | .node d cs, h => by
    have hd : d = false ∧ allAliveF cs = true := by
      simpa [allAlive, Bool.and_eq_true] using h
    unfold destroySub
    rw [if_neg (by simp [hd.1])]
    simpa [allDestroyed] using destroySubF_allDestroyed cs hd.2
/-- Forest version of `destroySub_allDestroyed`. -/
theorem destroySubF_allDestroyed : (f : BodyForest) → allAliveF f = true →
    allDestroyedF (destroySubF f) = true
  | .nil, _ => rfl
  | .cons b rest, h => by
    have hd : allAlive b = true ∧ allAliveF rest = true := by
      simpa [allAliveF, Bool.and_eq_true] using h
    unfold destroySubF
    simpa [allDestroyedF] using
      ⟨destroySub_allDestroyed b hd.1, destroySubF_allDestroyed rest hd.2⟩
end

mutual
/-- On a fully alive body, `destroy` fires exactly one destroy action per
node: the count of actions equals the subtree's node count. -/
theorem destroyCount_eq_size : (b : BodyTree) → allAlive b = true →
    destroyCount b = treeSize b
  | .node d cs, h => by
    have hd : d = false ∧ allAliveF cs = true := by
      simpa [allAlive, Bool.and_eq_true] using h
    unfold destroyCount treeSize
    rw [if_neg (by simp [hd.1])]
    rw [destroyCountF_eq_size cs hd.2]
/-- Forest version of `destroyCount_eq_size`. -/
theorem destroyCountF_eq_size : (f : BodyForest) → allAliveF f = true →
    destroyCountF f = forestSize f
  | .nil, _ => rfl
  | .cons b rest, h => by
    have hd : allAlive b = true ∧ allAliveF rest = true := by
      simpa [allAliveF, Bool.and_eq_true] using h
    unfold destroyCountF forestSize
    rw [destroyCount_eq_size b hd.1, destroyCountF_eq_size rest hd.2]
end

/-- C7: `destroy` is idempotent — on an already-destroyed body it changes
nothing (and a second call after a first one changes nothing) — and on first
call it sets the `destroyed` flag, removes the body from its parent's
children, and destroys every descendant exactly once (on a fully alive
subtree, every node ends destroyed and the count of destroy actions equals
the node count). -/
theorem destroy_idempotent_cascade (b : BodyTree) (pc : BodyForest) (i : Nat)
    (pr : Option (BodyForest × Nat)) :
    (b.destroyed = true → destroy b (some (pc, i)) = (b, some pc) ∧
      destroy b none = (b, none)) ∧
    (∀ q : Option (BodyForest × Nat),
      destroy (destroy b pr).1 q = ((destroy b pr).1, q.map Prod.fst)) ∧
    (b.destroyed = false →
      (destroy b (some (pc, i))).1.destroyed = true ∧
      (destroy b (some (pc, i))).2 = some (eraseIdxF pc i)) ∧
    (allAlive b = true →
      allDestroyed (destroy b pr).1 = true ∧ destroyCount b = treeSize b) := by
  refine ⟨fun hb => ?_, fun q => ?_, fun hb => ?_, fun ha => ?_⟩
  · unfold destroy
    rw [if_pos hb, if_pos hb]
    exact ⟨rfl, rfl⟩
  · have hd := destroy_fst_destroyed b pr
    set x := (destroy b pr).1 with hx
    unfold destroy
    rw [if_pos hd]
  · refine ⟨destroy_fst_destroyed b _, ?_⟩
    unfold destroy
    rw [if_neg (by simp [hb])]
    rfl
  · cases b with
    | node d cs =>
      have hd : d = false ∧ allAliveF cs = true := by
        simpa [allAlive, Bool.and_eq_true] using ha
      refine ⟨?_, destroyCount_eq_size _ ha⟩
      unfold destroy
      rw [if_neg (by simp [BodyTree.destroyed, hd.1])]
      simpa [allDestroyed, BodyTree.children] using
        destroySubF_allDestroyed cs hd.2

/-- A small alive tree: a root with two leaf children. -/
def sampleTree : BodyTree :=
  .node false (.cons (.node false .nil) (.cons (.node false .nil) .nil))

/-- Evaluation witness for `destroy_idempotent_cascade` on `sampleTree`:
first destroy sets the flag, detaches it from a one-element parent array,
marks all three nodes, and fires three destroy actions. -/
theorem destroy_idempotent_cascade_witness :
    sampleTree.destroyed = false ∧ allAlive sampleTree = true ∧
    (destroy sampleTree (some (.cons sampleTree .nil, 0))).1.destroyed = true ∧
    (destroy sampleTree (some (.cons sampleTree .nil, 0))).2 = some .nil ∧
    allDestroyed (destroy sampleTree none).1 = true ∧
    destroyCount sampleTree = 3 ∧ treeSize sampleTree = 3 := by
  have h := destroy_idempotent_cascade sampleTree (.cons sampleTree .nil) 0 none
  have h3 := h.2.2.1 rfl
  have h4 := h.2.2.2 rfl
  exact ⟨rfl, rfl, h3.1, h3.2, h4.1, by rw [h4.2]; rfl, rfl⟩

/-- The length of the unit vector `(1, 0)`. -/
theorem vec2R_unit_length : (⟨1, 0⟩ : Vec2R).length = 1 := by
  simp [Vec2R.length, Vec2R.lengthSquared]

/-- C9 counterexample: Not every `Vector2` operation returns a new
instance and leaves its receiver untouched: on the one-cell heap `[(1, 0)]`,
`setAngle(0, 2)` overwrites the receiver's cell (it now reads `(0, 2)`), and
`clampLength(2)` returns the receiver itself (reference `0`) with the heap
unchanged, because the length `1` does not exceed the limit `2`. -/
theorem vector_ops_value_semantics_counterexample :
    vget (setAngleOp [⟨1, 0⟩] 0 0 2).1 0 ≠ vget [⟨1, 0⟩] 0 ∧
    (clampLengthOp [⟨1, 0⟩] 0 2).2 = 0 ∧
    (clampLengthOp [⟨1, 0⟩] 0 2).1 = [⟨1, 0⟩] := by
  refine ⟨fun h => ?_, ?_, ?_⟩
  · have hx := congrArg Vec2R.x h
    simp [setAngleOp, vget] at hx
  · have hnot : ¬ (vget [(⟨1, 0⟩ : Vec2R)] 0).length > 2 := by
      have : vget [(⟨1, 0⟩ : Vec2R)] 0 = ⟨1, 0⟩ := rfl
      rw [this, vec2R_unit_length]
      norm_num
    simp [clampLengthOp, hnot]
  · have hnot : ¬ (vget [(⟨1, 0⟩ : Vec2R)] 0).length > 2 := by
      have : vget [(⟨1, 0⟩ : Vec2R)] 0 = ⟨1, 0⟩ := rfl
      rw [this, vec2R_unit_length]
      norm_num
    simp [clampLengthOp, hnot]

/-- C9 amended: The arithmetic operations (here `add`) allocate the
result at a fresh reference — distinct from any live reference, in particular
from the receiver — and leave every existing cell unchanged; `clampLength`
never mutates, but returns the receiver itself (not a new instance) when the
length does not exceed the limit, and a freshly allocated vector otherwise;
`setAngle` overwrites the receiver's cell in place and returns the receiver. -/
theorem vector_ops_reference_semantics (s : List Vec2R) (a v r : Nat)
    (len ang : ℝ) (hr : r < s.length) :
    ((addOp s a v).2 = s.length ∧ (a < s.length → (addOp s a v).2 ≠ a) ∧
      vget (addOp s a v).1 r = vget s r) ∧
    ((¬ (vget s a).length > len → clampLengthOp s a len = (s, a)) ∧
     ((vget s a).length > len →
       (clampLengthOp s a len).2 = s.length ∧
       vget (clampLengthOp s a len).1 r = vget s r)) ∧
    ((setAngleOp s a ang len).2 = a ∧
      (setAngleOp s a ang len).1 =
        s.set a ⟨len * Real.sin ang, len * Real.cos ang⟩) := by
  have happend : ∀ w : Vec2R, vget (s ++ [w]) r = vget s r := by
    intro w
    simp only [vget]
    rw [List.getD_append _ _ _ _ hr]
  refine ⟨⟨rfl, fun ha h => ?_, happend _⟩, ⟨fun hl => ?_, fun hl => ?_⟩, rfl, rfl⟩
  · rw [addOp, valloc] at h
    exact absurd (h ▸ ha) (lt_irrefl _)
  · simp [clampLengthOp, hl]
  · constructor
    · simp [clampLengthOp, hl, valloc]
    · simp only [clampLengthOp, valloc]
      rw [if_pos hl]
      exact happend _

/-- Evaluation witness for `vector_ops_reference_semantics` on the two-cell
heap `[(1, 0), (3, 4)]`. -/
theorem vector_ops_reference_semantics_witness :
    (0 : Nat) < 2 ∧
    (addOp [⟨1, 0⟩, ⟨3, 4⟩] 0 1).2 = 2 ∧
    vget (addOp [⟨1, 0⟩, ⟨3, 4⟩] 0 1).1 0 = vget [(⟨1, 0⟩ : Vec2R), ⟨3, 4⟩] 0 ∧
    clampLengthOp [⟨1, 0⟩, ⟨3, 4⟩] 0 2 = ([⟨1, 0⟩, ⟨3, 4⟩], 0) ∧
    (setAngleOp [⟨1, 0⟩, ⟨3, 4⟩] 0 0 2).2 = 0 := by
  have hr : (0 : Nat) < ([(⟨1, 0⟩ : Vec2R), ⟨3, 4⟩]).length := by norm_num
  have h := vector_ops_reference_semantics [⟨1, 0⟩, ⟨3, 4⟩] 0 1 0 2 0 hr
  have hnot : ¬ (vget [(⟨1, 0⟩ : Vec2R), ⟨3, 4⟩] 0).length > 2 := by
    have : vget [(⟨1, 0⟩ : Vec2R), ⟨3, 4⟩] 0 = ⟨1, 0⟩ := rfl
    rw [this, vec2R_unit_length]
    norm_num
  exact ⟨by norm_num, h.1.1, h.1.2.2, h.2.1.1 hnot, h.2.2.1⟩
